import Mathlib

set_option maxRecDepth 100000

/-!
Verification development for the MCP_websearch server.

Shallow embedding of the repository's Python sources:
  * `src/middleware.py`  — `BearerAuthMiddleware` (constructor and `on_request`)
  * `src/config.py`      — credential plumbing (modelled as explicit parameters)
  * `src/search/serper.py` — `google_search`, `extract_page_content`
  * `src/search/ui.py`   — `generate_search_results_html`, `create_search_results_ui`
  * `src/main.py`        — middleware installation, `search_web_ui_tool`

Machine strings are Lean `String`s; Python `Optional[str]` arguments become
`Option String`; Python exceptions become explicit outcome types; the outbound
HTTP transport is an explicit oracle parameter `provider` so that "no network
call" is expressible as independence from the oracle.
-/

/-- Python truthiness of an `Optional[str]` value: truthy iff present and non-empty
(this is what bare `if x:` tests in the source). -/
def pyTruthy : Option String → Bool
  | none => false
  | some s => s != ""

/-- Python `str.startswith`, on code points (`p.data` a prefix of `s.data`). -/
def strStartsWith (s p : String) : Bool := p.data.isPrefixOf s.data

/-- Python slicing `s[n:]`, on code points. -/
def strDrop (s : String) (n : Nat) : String := String.mk (s.data.drop n)

/-- The string `pat` occurs as a contiguous substring of `s`. -/
def containsStr (s pat : String) : Prop := pat.data <:+: s.data

/-- Executable substring search (structural recursion, kernel-friendly). -/
def containsB : List Char → List Char → Bool
  | [], pat => pat.isEmpty
  | s :: rest, pat => (pat.isPrefixOf (s :: rest)) || containsB rest pat

theorem containsB_iff (s pat : List Char) : containsB s pat = true ↔ pat <:+: s := by
  induction s with
  | nil => simp [containsB, List.isEmpty_iff, List.infix_nil]
  | cons c cs ih =>
    simp [containsB, List.isPrefixOf_iff_prefix, ih, List.infix_cons_iff]

instance containsStrDecidable (s pat : String) : Decidable (containsStr s pat) :=
  decidable_of_iff (containsB s.data pat.data = true) (containsB_iff s.data pat.data)

/- ===================== src/middleware.py ===================== -/

/-- Error payload raised through `McpError(ErrorData(code=..., message=...))`. -/
structure ErrorData where
  code : Int
  message : String
deriving DecidableEq

/-- Outcome of the authentication stage on one inbound call: either the call is
delegated to `call_next` (the handler runs), or it is rejected with an error. -/
inductive AuthOutcome where
  | delegated
  | rejected (err : ErrorData)
deriving DecidableEq

/-- Message raised at `src/middleware.py:44-49` when the Authorization header is absent. -/
def missingHeaderMsg : String := "Authentication required: Missing Authorization header"

/-- Message raised at `src/middleware.py:53-59` when the header lacks the Bearer scheme. -/
def malformedHeaderMsg : String :=
  "Authentication required: Invalid Authorization header format. Expected \x27Bearer <token>\x27"

/-- Message raised at `src/middleware.py:63-69` when the presented token mismatches. -/
def invalidKeyMsg : String := "Authentication failed: Invalid API key"

/-- Embedding of `BearerAuthMiddleware.__init__` (`src/middleware.py:24-33`):
an empty key raises `ValueError("API key cannot be empty")`, otherwise the
instance stores the key in `self.api_key`. -/
def BearerAuthMiddleware.construct (api_key : String) : Except String String :=
  if api_key = "" then Except.error "API key cannot be empty"
  else Except.ok api_key

/-- Embedding of `BearerAuthMiddleware.on_request` (`src/middleware.py:35-75`).
`auth_header` is the value produced by `_get_auth_header` (`none` when no HTTP
Authorization header is available); Python's falsy test `if not auth_header`
also treats an empty-string header as missing. -/
def BearerAuthMiddleware.on_request (api_key method : String)
    (auth_header : Option String) : AuthOutcome :=
  if method = "initialize" then AuthOutcome.delegated
  else if auth_header.getD "" = "" then AuthOutcome.rejected ⟨-32001, missingHeaderMsg⟩
  else if !strStartsWith (auth_header.getD "") "Bearer " then
    AuthOutcome.rejected ⟨-32001, malformedHeaderMsg⟩
  else if strDrop (auth_header.getD "") 7 ≠ api_key then
    AuthOutcome.rejected ⟨-32001, invalidKeyMsg⟩
  else AuthOutcome.delegated

/-- Embedding of the middleware installation in `src/main.py:63-67`: the
authentication middleware is added only when `config.API_KEY` is truthy
(non-empty); with no credential configured every call passes auth. -/
def serverAuth (config_api_key method : String) (auth_header : Option String) : AuthOutcome :=
  if config_api_key ≠ "" then BearerAuthMiddleware.on_request config_api_key method auth_header
  else AuthOutcome.delegated

/- helper lemmas about the string primitives -/

theorem strStartsWith_append (p t : String) : strStartsWith (p ++ t) p = true := by
  simp only [strStartsWith, String.data_append]
  rw [List.isPrefixOf_iff_prefix]
  exact List.prefix_append _ _

theorem strDrop_bearer (t : String) : strDrop ("Bearer " ++ t) 7 = t := by
  simp only [strDrop, String.data_append]
  rfl

theorem bearer_append_ne_empty (t : String) : ("Bearer " ++ t) ≠ "" := by
  intro h
  have : ("Bearer " ++ t).data = "".data := by rw [h]
  rw [String.data_append] at this
  simp at this

/-- Which error an authentication rejection carries, as a function of the call
context alone (method and presented header): the three branch messages of
`on_request` that do not depend on the configured credential. -/
def expectedErr (method : String) (auth_header : Option String) : ErrorData :=
  if method = "initialize" then ⟨-32001, missingHeaderMsg⟩
  else if auth_header.getD "" = "" then ⟨-32001, missingHeaderMsg⟩
  else if !strStartsWith (auth_header.getD "") "Bearer " then ⟨-32001, malformedHeaderMsg⟩
  else ⟨-32001, invalidKeyMsg⟩

theorem rejected_eq_expectedErr (k m : String) (h : Option String) (e : ErrorData)
    (hrej : serverAuth k m h = AuthOutcome.rejected e) : e = expectedErr m h := by
  unfold serverAuth BearerAuthMiddleware.on_request at hrej
  split at hrej
  · split at hrej
    · simp at hrej
    · split at hrej
      · simp_all [expectedErr]
      · split at hrej
        · simp_all [expectedErr]
        · split at hrej
          · simp_all [expectedErr]
          · simp at hrej
  · simp at hrej

theorem expectedErr_fixed (m : String) (h : Option String) :
    (expectedErr m h).code = -32001
    ∧ ((expectedErr m h).message = missingHeaderMsg
       ∨ (expectedErr m h).message = malformedHeaderMsg
       ∨ (expectedErr m h).message = invalidKeyMsg) := by
  unfold expectedErr
  split_ifs <;> simp

/-- C1: with a configured credential the authentication stage delegates the
`initialize` handshake unconditionally; rejects a missing (or empty) header with
the missing-credential error, a header without the `"Bearer "` prefix with the
malformed-credential error, and a `"Bearer "` header whose token differs from the
credential with the invalid-credential error — all with code `-32001` — and
delegates `"Bearer <credential>"`; with no credential configured the stage is not
installed and every call passes. -/
theorem spec_C1_auth_stage (k : String) (hk : k ≠ "") :
    (∀ h : Option String, serverAuth k "initialize" h = AuthOutcome.delegated)
    ∧ (∀ m : String, m ≠ "initialize" →
        serverAuth k m none = AuthOutcome.rejected ⟨-32001, missingHeaderMsg⟩)
    ∧ (∀ m h, m ≠ "initialize" → h ≠ "" → strStartsWith h "Bearer " = false →
        serverAuth k m (some h) = AuthOutcome.rejected ⟨-32001, malformedHeaderMsg⟩)
    ∧ (∀ m t, m ≠ "initialize" → t ≠ k →
        serverAuth k m (some ("Bearer " ++ t)) = AuthOutcome.rejected ⟨-32001, invalidKeyMsg⟩)
    ∧ (∀ m : String, serverAuth k m (some ("Bearer " ++ k)) = AuthOutcome.delegated)
    ∧ (∀ (m : String) (h : Option String), serverAuth "" m h = AuthOutcome.delegated) := by
  refine ⟨?_, ?_, ?_, ?_, ?_, ?_⟩
  · intro h
    simp [serverAuth, BearerAuthMiddleware.on_request, hk]
  · intro m hm
    simp [serverAuth, BearerAuthMiddleware.on_request, hk, hm]
  · intro m h hm hh hsw
    simp [serverAuth, BearerAuthMiddleware.on_request, hk, hm, hh, hsw]
  · intro m t hm ht
    simp [serverAuth, BearerAuthMiddleware.on_request, hk, hm,
      bearer_append_ne_empty, strStartsWith_append, strDrop_bearer, ht]
  · intro m
    by_cases hm : m = "initialize" <;>
      simp [serverAuth, BearerAuthMiddleware.on_request, hk, hm,
        bearer_append_ne_empty, strStartsWith_append, strDrop_bearer]
  · intro m h
    simp [serverAuth]

/-- C1 witness: the six cases of `spec_C1_auth_stage` evaluated at the credential
`"secret"`, method `"tools/call"` and concrete headers. -/
theorem spec_C1_auth_stage_witness :
    serverAuth "secret" "initialize" (some "Token xyz") = AuthOutcome.delegated
    ∧ serverAuth "secret" "tools/call" none = AuthOutcome.rejected ⟨-32001, missingHeaderMsg⟩
    ∧ serverAuth "secret" "tools/call" (some "Token xyz")
        = AuthOutcome.rejected ⟨-32001, malformedHeaderMsg⟩
    ∧ serverAuth "secret" "tools/call" (some ("Bearer " ++ "wrong"))
        = AuthOutcome.rejected ⟨-32001, invalidKeyMsg⟩
    ∧ serverAuth "secret" "tools/call" (some ("Bearer " ++ "secret")) = AuthOutcome.delegated
    ∧ serverAuth "" "tools/call" none = AuthOutcome.delegated := by
  have H := spec_C1_auth_stage "secret" (by decide)
  exact ⟨H.1 (some "Token xyz"), H.2.1 "tools/call" (by decide),
    H.2.2.1 "tools/call" "Token xyz" (by decide) (by decide) (by decide),
    H.2.2.2.1 "tools/call" "wrong" (by decide) (by decide),
    H.2.2.2.2.1 "tools/call", H.2.2.2.2.2 "tools/call" none⟩

/-- C2 counterexample: the claim says rejection messages "never contain the
configured credential value"; with the legal (non-empty) credential `"key"` the
invalid-credential rejection message `"Authentication failed: Invalid API key"`
contains the credential as a substring. -/
theorem spec_C2_message_contains_credential :
    ("key" : String) ≠ ""
    ∧ serverAuth "key" "tools/call" (some "Bearer wrong")
        = AuthOutcome.rejected ⟨-32001, invalidKeyMsg⟩
    ∧ containsStr invalidKeyMsg "key" := by
  refine ⟨by decide, by decide, by decide⟩

/-- C2 amended: every authentication rejection carries code `-32001` and one of
the three fixed messages, none of which depends on the configured credential;
whenever two runs differing only in the configured credential both reject the
same input, they produce identical errors (message and code). -/
theorem spec_C2_fixed_rejection_messages (k k2 m : String) (h : Option String) :
    (∀ e, serverAuth k m h = AuthOutcome.rejected e →
        e.code = -32001
        ∧ (e.message = missingHeaderMsg ∨ e.message = malformedHeaderMsg
           ∨ e.message = invalidKeyMsg))
    ∧ (∀ e1 e2, serverAuth k m h = AuthOutcome.rejected e1 →
        serverAuth k2 m h = AuthOutcome.rejected e2 → e1 = e2) := by
  constructor
  · intro e he
    rw [rejected_eq_expectedErr k m h e he]
    exact expectedErr_fixed m h
  · intro e1 e2 h1 h2
    rw [rejected_eq_expectedErr k m h e1 h1, rejected_eq_expectedErr k2 m h e2 h2]

/-- C2 amended witness: both halves of `spec_C2_fixed_rejection_messages`
evaluated at credentials `"a"` and `"b"` with a missing header. -/
theorem spec_C2_fixed_rejection_messages_witness :
    ((⟨-32001, missingHeaderMsg⟩ : ErrorData).code = -32001
      ∧ ((⟨-32001, missingHeaderMsg⟩ : ErrorData).message = missingHeaderMsg
         ∨ (⟨-32001, missingHeaderMsg⟩ : ErrorData).message = malformedHeaderMsg
         ∨ (⟨-32001, missingHeaderMsg⟩ : ErrorData).message = invalidKeyMsg))
    ∧ (⟨-32001, missingHeaderMsg⟩ : ErrorData) = ⟨-32001, missingHeaderMsg⟩ := by
  have H := spec_C2_fixed_rejection_messages "a" "b" "tools/call" none
  exact ⟨H.1 ⟨-32001, missingHeaderMsg⟩ (by decide), H.2 _ _ (by decide) (by decide)⟩

/-- C10: constructing `BearerAuthMiddleware` with an empty credential raises
`ValueError("API key cannot be empty")`; every successfully constructed instance
stores the given non-empty credential. -/
theorem spec_C10_constructor_rejects_empty :
    BearerAuthMiddleware.construct "" = Except.error "API key cannot be empty"
    ∧ ∀ k stored, BearerAuthMiddleware.construct k = Except.ok stored →
        stored = k ∧ stored ≠ "" := by
  constructor
  · rfl
  · intro k stored hok
    unfold BearerAuthMiddleware.construct at hok
    split at hok
    · cases hok
    · cases hok
      exact ⟨rfl, by assumption⟩

/-- C10 witness: the constructor succeeds on `"abc"` and the stored credential is
`"abc"`, which is non-empty. -/
theorem spec_C10_constructor_rejects_empty_witness :
    ("abc" : String) = "abc" ∧ ("abc" : String) ≠ "" :=
  spec_C10_constructor_rejects_empty.2 "abc" "abc" (by rfl)

/- ===================== src/search/serper.py ===================== -/

/-- Embedding of the `SerperAPIError` exception (`src/search/serper.py:8-14`):
a message plus an optional upstream HTTP status code. -/
structure SerperAPIError where
  message : String
  status_code : Option Int
deriving DecidableEq

/-- The JSON payload posted to the provider's search endpoint; optional fields
are `none` exactly when the corresponding key is absent from the Python dict. -/
structure SearchPayload where
  q : String
  gl : Option String := none
  hl : Option String := none
  location : Option String := none
  tbs : Option String := none
  page : Option Int := none
deriving DecidableEq

/-- One entry of the provider's `organic` result array; every field is read with
`item.get(...)`, so each is optional. -/
structure SearchResultItem where
  title : Option String := none
  link : Option String := none
  snippet : Option String := none
  position : Option Int := none
deriving DecidableEq

/-- The provider's search response body, as far as the code reads it:
`data.get("organic", [])`. -/
structure SearchData where
  organic : Option (List SearchResultItem) := none

/-- Python `str.lower`, per code point (the code applies it to 2-letter ASCII
country/language codes). -/
def strLower (s : String) : String := String.mk (s.data.map Char.toLower)

/-- Payload construction of `google_search` (`src/search/serper.py:47-68`),
including the `page = page if page is not None else 1` defaulting. -/
def buildSearchPayload (query : String)
    (country language location time_period : Option String) (page : Option Int) :
    SearchPayload :=
  let page := page.getD 1
  let payload : SearchPayload := { q := query }
  let payload := if pyTruthy country then
      { payload with gl := some (strLower (country.getD "")) } else payload
  let payload := if pyTruthy language then
      { payload with hl := some (strLower (language.getD "")) } else payload
  let payload := if pyTruthy location then { payload with location := location } else payload
  let payload := if pyTruthy time_period then { payload with tbs := time_period } else payload
  if page > 1 then { payload with page := some page } else payload

/-- Python `"\n\n".join`-style joining (`str.join`). -/
def pyJoin (sep : String) : List String → String
  | [] => ""
  | [x] => x
  | x :: y :: xs => x ++ sep ++ pyJoin sep (y :: xs)

/-- One organic item rendered as the three lines `title\nlink\nsnippet`
(`src/search/serper.py:96-101`). -/
def organicEntry (item : SearchResultItem) : String :=
  item.title.getD "" ++ "\n" ++ item.link.getD "" ++ "\n" ++ item.snippet.getD ""

/-- Flattened-text formatting of the organic result list
(`src/search/serper.py:95-103`). -/
def formatOrganicResults (organic : List SearchResultItem) : String :=
  pyJoin "\n\n" (organic.map organicEntry)

/-- Embedding of `google_search` (`src/search/serper.py:17-103`). The outbound
HTTP transport is the oracle `provider`, consulted at most once with the built
payload; an upstream or connectivity failure is the oracle's `error` branch. -/
def google_search (serper_api_key query : String)
    (country language location time_period : Option String) (page : Option Int)
    (provider : SearchPayload → Except SerperAPIError SearchData) :
    Except SerperAPIError String :=
  if serper_api_key = "" then
    Except.error ⟨"SERPER_API_KEY is not configured", none⟩
  else
    match provider (buildSearchPayload query country language location time_period page) with
    | Except.error e => Except.error e
    | Except.ok data => Except.ok (formatOrganicResults (data.organic.getD []))

/-- The provider's scrape response body, as far as the code reads it:
`data.get("metadata", {}).get("title", "")` and `data.get("text", "")`. -/
structure ScrapeData where
  metadataTitle : Option String := none
  text : Option String := none
deriving DecidableEq

/-- Output formatting of `extract_page_content` (`src/search/serper.py:150-159`):
`"{title}\n\n{content}"` when the (defaulted) title is truthy, else the content. -/
def formatScrape (data : ScrapeData) : String :=
  if data.metadataTitle.getD "" ≠ "" then
    data.metadataTitle.getD "" ++ "\n\n" ++ data.text.getD ""
  else data.text.getD ""

/-- Embedding of `extract_page_content` (`src/search/serper.py:106-159`), with
the outbound transport as an oracle in the same way as `google_search`. -/
def extract_page_content (serper_api_key url : String)
    (provider : String → Except SerperAPIError ScrapeData) :
    Except SerperAPIError String :=
  if serper_api_key = "" then
    Except.error ⟨"SERPER_API_KEY is not configured", none⟩
  else
    match provider url with
    | Except.error e => Except.error e
    | Except.ok data => Except.ok (formatScrape data)

theorem bsp_q (query : String) (country language location time_period : Option String)
    (page : Option Int) :
    (buildSearchPayload query country language location time_period page).q = query := by
  simp only [buildSearchPayload]
  split_ifs <;> rfl

theorem bsp_gl (query : String) (country language location time_period : Option String)
    (page : Option Int) :
    (buildSearchPayload query country language location time_period page).gl
      = if pyTruthy country then some (strLower (country.getD "")) else none := by
  simp only [buildSearchPayload]
  split_ifs <;> rfl

theorem bsp_hl (query : String) (country language location time_period : Option String)
    (page : Option Int) :
    (buildSearchPayload query country language location time_period page).hl
      = if pyTruthy language then some (strLower (language.getD "")) else none := by
  simp only [buildSearchPayload]
  split_ifs <;> rfl

theorem bsp_location (query : String) (country language location time_period : Option String)
    (page : Option Int) :
    (buildSearchPayload query country language location time_period page).location
      = if pyTruthy location then location else none := by
  simp only [buildSearchPayload]
  split_ifs <;> rfl

theorem bsp_tbs (query : String) (country language location time_period : Option String)
    (page : Option Int) :
    (buildSearchPayload query country language location time_period page).tbs
      = if pyTruthy time_period then time_period else none := by
  simp only [buildSearchPayload]
  split_ifs <;> rfl

theorem bsp_page (query : String) (country language location time_period : Option String)
    (page : Option Int) :
    (buildSearchPayload query country language location time_period page).page
      = if page.getD 1 > 1 then some (page.getD 1) else none := by
  simp only [buildSearchPayload]
  split_ifs <;> rfl

/-- C3: the outbound search payload always carries the query under `q`; carries
`gl`/`hl` with the lower-cased country/language exactly when those arguments are
present and non-empty; carries `location`/`tbs` verbatim exactly when present and
non-empty; carries `page` exactly when the defaulted page exceeds 1; and the
concrete examples `page=None`/`page=1`/`page=2`/`country="US"` behave as stated,
with absent fields omitted (`none`), never null or empty. -/
theorem spec_C3_outbound_payload :
    (∀ query country language location time_period page,
      (buildSearchPayload query country language location time_period page).q = query)
    ∧ (∀ query (c : String) language location time_period page, c ≠ "" →
        (buildSearchPayload query (some c) language location time_period page).gl
          = some (strLower c))
    ∧ (∀ query language location time_period page,
        (buildSearchPayload query none language location time_period page).gl = none
        ∧ (buildSearchPayload query (some "") language location time_period page).gl = none)
    ∧ (∀ query country (l : String) location time_period page, l ≠ "" →
        (buildSearchPayload query country (some l) location time_period page).hl
          = some (strLower l))
    ∧ (∀ query country location time_period page,
        (buildSearchPayload query country none location time_period page).hl = none
        ∧ (buildSearchPayload query country (some "") location time_period page).hl = none)
    ∧ (∀ query country language (loc : String) time_period page, loc ≠ "" →
        (buildSearchPayload query country language (some loc) time_period page).location
          = some loc)
    ∧ (∀ query country language time_period page,
        (buildSearchPayload query country language none time_period page).location = none
        ∧ (buildSearchPayload query country language (some "") time_period page).location = none)
    ∧ (∀ query country language location (tp : String) page, tp ≠ "" →
        (buildSearchPayload query country language location (some tp) page).tbs = some tp)
    ∧ (∀ query country language location page,
        (buildSearchPayload query country language location none page).tbs = none
        ∧ (buildSearchPayload query country language location (some "") page).tbs = none)
    ∧ (∀ query country language location time_period (page : Option Int),
        page.getD 1 > 1 →
        (buildSearchPayload query country language location time_period page).page
          = some (page.getD 1))
    ∧ (∀ query country language location time_period (page : Option Int),
        page.getD 1 ≤ 1 →
        (buildSearchPayload query country language location time_period page).page = none)
    ∧ buildSearchPayload "x" none none none none none
        = buildSearchPayload "x" none none none none (some 1)
    ∧ buildSearchPayload "x" none none none none none = { q := "x" }
    ∧ buildSearchPayload "x" none none none none (some 2) = { q := "x", page := some 2 }
    ∧ (buildSearchPayload "x" (some "US") none none none none).gl = some "us" := by
  refine ⟨fun a b c d e f => bsp_q a b c d e f, ?_, ?_, ?_, ?_, ?_, ?_, ?_, ?_, ?_, ?_,
    by decide, by decide, by decide, by decide⟩
  · intro query c language location time_period page hc
    rw [bsp_gl]; simp [pyTruthy, hc]
  · intro query language location time_period page
    constructor <;> (rw [bsp_gl]; simp [pyTruthy])
  · intro query country l location time_period page hl
    rw [bsp_hl]; simp [pyTruthy, hl]
  · intro query country location time_period page
    constructor <;> (rw [bsp_hl]; simp [pyTruthy])
  · intro query country language loc time_period page hloc
    rw [bsp_location]; simp [pyTruthy, hloc]
  · intro query country language time_period page
    constructor <;> (rw [bsp_location]; simp [pyTruthy])
  · intro query country language location tp page htp
    rw [bsp_tbs]; simp [pyTruthy, htp]
  · intro query country language location page
    constructor <;> (rw [bsp_tbs]; simp [pyTruthy])
  · intro query country language location time_period page hpage
    rw [bsp_page, if_pos hpage]
  · intro query country language location time_period page hpage
    rw [bsp_page, if_neg (by omega)]

/-- C3 witness: concrete instantiations of each conditional clause of
`spec_C3_outbound_payload`. -/
theorem spec_C3_outbound_payload_witness :
    (buildSearchPayload "x" (some "US") none none none none).gl = some (strLower "US")
    ∧ (buildSearchPayload "x" none (some "En") none none none).hl = some (strLower "En")
    ∧ (buildSearchPayload "x" none none (some "Prague") none none).location = some "Prague"
    ∧ (buildSearchPayload "x" none none none (some "qdr:d") none).tbs = some "qdr:d"
    ∧ (buildSearchPayload "x" none none none none (some 2)).page
        = some ((some (2 : Int)).getD 1)
    ∧ (buildSearchPayload "x" none none none none none).page = none := by
  have H := spec_C3_outbound_payload
  exact ⟨H.2.1 "x" "US" none none none none (by decide),
    H.2.2.2.1 "x" none "En" none none none (by decide),
    H.2.2.2.2.2.1 "x" none none "Prague" none none (by decide),
    H.2.2.2.2.2.2.2.1 "x" none none none "qdr:d" none (by decide),
    H.2.2.2.2.2.2.2.2.2.1 "x" none none none none (some 2) (by decide),
    H.2.2.2.2.2.2.2.2.2.2.1 "x" none none none none none (by decide)⟩

/-- C4: with the upstream provider credential unconfigured (empty), both gateway
operations fail immediately with the configuration error (missing-key message,
no HTTP status code), and their result does not depend on the outbound transport
oracle — no network call is consulted on this path. -/
theorem spec_C4_missing_upstream_credential :
    (∀ query country language location time_period page
        (provider provider2 : SearchPayload → Except SerperAPIError SearchData),
      google_search "" query country language location time_period page provider
        = Except.error ⟨"SERPER_API_KEY is not configured", none⟩
      ∧ google_search "" query country language location time_period page provider
        = google_search "" query country language location time_period page provider2)
    ∧ (∀ url (provider provider2 : String → Except SerperAPIError ScrapeData),
      extract_page_content "" url provider
        = Except.error ⟨"SERPER_API_KEY is not configured", none⟩
      ∧ extract_page_content "" url provider = extract_page_content "" url provider2) := by
  constructor
  · intro query country language location time_period page provider provider2
    exact ⟨rfl, rfl⟩
  · intro url provider provider2
    exact ⟨rfl, rfl⟩

/-- C5: the flattened search text renders each organic item as the three lines
`title\nlink\nsnippet`, joins consecutive items with exactly one blank line, in
the order received; the two-item example produces the exact string of the claim;
and a successful provider call returns exactly this flattening of the response's
organic list. -/
theorem spec_C5_flattened_text :
    formatOrganicResults
        [{ title := some "A", link := some "http://a.test", snippet := some "sa" },
         { title := some "B", link := some "http://b.test", snippet := some "sb" }]
      = "A\nhttp://a.test\nsa\n\nB\nhttp://b.test\nsb"
    ∧ (∀ (t l s : String) (p : Option Int),
        organicEntry ⟨some t, some l, some s, p⟩ = t ++ "\n" ++ l ++ "\n" ++ s)
    ∧ (∀ x, formatOrganicResults [x] = organicEntry x)
    ∧ (∀ x y ys, formatOrganicResults (x :: y :: ys)
        = organicEntry x ++ "\n\n" ++ formatOrganicResults (y :: ys))
    ∧ (∀ key query country language location time_period page provider data,
        key ≠ "" →
        provider (buildSearchPayload query country language location time_period page)
          = Except.ok data →
        google_search key query country language location time_period page provider
          = Except.ok (formatOrganicResults (data.organic.getD []))) := by
  refine ⟨by decide, ?_, ?_, ?_, ?_⟩
  · intro t l s p; rfl
  · intro x; rfl
  · intro x y ys; rfl
  · intro key query country language location time_period page provider data hk hprov
    simp [google_search, hk, hprov]

/-- C5 witness: the pipeline clause of `spec_C5_flattened_text` at a concrete
provider oracle answering the two-item example response. -/
theorem spec_C5_flattened_text_witness :
    google_search "serperkey" "x" none none none none none
        (fun _ => Except.ok
          { organic := some
              [{ title := some "A", link := some "http://a.test", snippet := some "sa" },
               { title := some "B", link := some "http://b.test", snippet := some "sb" }] })
      = Except.ok (formatOrganicResults
          ((some
              [({ title := some "A", link := some "http://a.test", snippet := some "sa" }
                  : SearchResultItem),
               { title := some "B", link := some "http://b.test", snippet := some "sb" }]
            : Option (List SearchResultItem)).getD [])) :=
  spec_C5_flattened_text.2.2.2.2 "serperkey" "x" none none none none none _ _
    (by decide) rfl

/-- C6: extract output is `"{title}\n\n{body}"` when the response metadata holds
a (non-empty) title, the body text alone when the title is absent or empty, and
the empty string — not an error — when both title and body are absent or empty;
including the two concrete examples of the claim, and a successful provider call
returns exactly this formatting. -/
theorem spec_C6_extract_formatting :
    (∀ (t : String) (b : Option String), t ≠ "" →
        formatScrape ⟨some t, b⟩ = t ++ "\n\n" ++ b.getD "")
    ∧ (∀ b : Option String, formatScrape ⟨none, b⟩ = b.getD "")
    ∧ (∀ b : Option String, formatScrape ⟨some "", b⟩ = b.getD "")
    ∧ formatScrape ⟨none, none⟩ = ""
    ∧ formatScrape ⟨none, some ""⟩ = ""
    ∧ formatScrape ⟨some "T", some "body"⟩ = "T\n\nbody"
    ∧ formatScrape ⟨none, some "body"⟩ = "body"
    ∧ (∀ key url provider data, key ≠ "" → provider url = Except.ok data →
        extract_page_content key url provider = Except.ok (formatScrape data)) := by
  refine ⟨?_, ?_, ?_, by decide, by decide, by decide, by decide, ?_⟩
  · intro t b ht; simp [formatScrape, ht]
  · intro b; simp [formatScrape]
  · intro b; simp [formatScrape]
  · intro key url provider data hk hprov
    simp [extract_page_content, hk, hprov]

/-- C6 witness: the titled clause at `{metadata:{title:"T"}, text:"body"}` and
the pipeline clause at a concrete provider oracle answering that response. -/
theorem spec_C6_extract_formatting_witness :
    formatScrape ⟨some "T", some "body"⟩ = "T" ++ "\n\n" ++ (some "body").getD ""
    ∧ extract_page_content "serperkey" "http://a.test"
        (fun _ => Except.ok ⟨some "T", some "body"⟩)
      = Except.ok (formatScrape ⟨some "T", some "body"⟩) :=
  ⟨spec_C6_extract_formatting.1 "T" (some "body") (by decide),
   spec_C6_extract_formatting.2.2.2.2.2.2.2 "serperkey" "http://a.test" _ _
     (by decide) rfl⟩

/- ===================== src/search/ui.py ===================== -/

/-- Character-level expansion of Python `html.escape` (with `quote=True`), the
function imported as `escape` in `src/search/ui.py`. -/
def escapeChar (c : Char) : String :=
  if c = '&' then "&amp;"
  else if c = '<' then "&lt;"
  else if c = '>' then "&gt;"
  else if c = '"' then "&quot;"
  else if c = '\x27' then "&#x27;"
  else String.singleton c

def escapeData : List Char → List Char
  | [] => []
  | c :: cs => (escapeChar c).data ++ escapeData cs

/-- Python `html.escape` on a whole string (the sequential `str.replace` chain is
equivalent to this per-character expansion). -/
def html_escape (s : String) : String := String.mk (escapeData s.data)

/-- Embedding of `_escape_html` (`src/search/ui.py:21-23`): escape, with Python
truthiness short-circuiting the empty string. -/
def escape_html (text : String) : String :=
  if text ≠ "" then html_escape text else ""

/-- Valid characters of a URL scheme after its leading letter. -/
def isSchemeChar (c : Char) : Bool := c.isAlphanum || c = '+' || c = '-' || c = '.'

/-- Splits a character list at its first colon. -/
def splitAtColon : List Char → Option (List Char × List Char)
  | [] => none
  | c :: cs =>
    if c = ':' then some ([], cs)
    else match splitAtColon cs with
      | some (pre, post) => some (c :: pre, post)
      | none => none

/-- Models `urllib.parse.urlparse` (external standard library) as far as the UI
code reads it: strip a valid `scheme:` prefix, then when the remainder starts
with `//` read the network location up to the first `/`, `?` or `#`; returns
`(netloc, rest)` with `rest` the remainder after the netloc. -/
def urlparseNetloc (url : String) : String × String :=
  let d := url.data
  let rest := match splitAtColon d with
    | some (pre, post) =>
      if pre ≠ [] ∧ (pre.headD ' ').isAlpha ∧ pre.all isSchemeChar then post else d
    | none => d
  match rest with
  | '/' :: '/' :: r =>
    (String.mk (r.takeWhile fun c => c != '/' && c != '?' && c != '#'),
     String.mk (r.dropWhile fun c => c != '/' && c != '?' && c != '#'))
  | _ => ("", String.mk rest)

/-- Embedding of `_get_domain` (`src/search/ui.py:26-31`): `urlparse(url).netloc`
(the `except` branch is unreachable for string input). -/
def get_domain (url : String) : String := (urlparseNetloc url).1

/-- Embedding of `_get_favicon_url` (`src/search/ui.py:11-18`): the favicon
service URL built from `parsed.netloc or parsed.path.split(\x27/\x27)[0]`. -/
def get_favicon_url (url : String) : String :=
  let parsed := urlparseNetloc url
  let path := String.mk (parsed.2.data.takeWhile fun c => c != '?' && c != '#')
  let domain := if parsed.1 ≠ "" then parsed.1 else String.mk (path.data.takeWhile (· != '/'))
  "https://www.google.com/s2/favicons?domain=" ++ domain ++ "&sz=32"

/-- The fixed "no results" placeholder fragment (`src/search/ui.py:44-56`). -/
def emptyResultsHtml : String :=
  "<style>*\x7bmargin:0;padding:0;box-sizing:border-box\x7dhtml,body\x7boverflow:hidden\x7d</style>\n<article class=\"mcp-ui-container\" style=\"min-height:150px;display:flex;align-items:center;justify-content:center;padding:20px;font-family:-apple-system,BlinkMacSystemFont,\x27Segoe UI\x27,sans-serif;color:#666;background:#f5f5f5\">\n  <div style=\"text-align:center\">\n    <div style=\"font-size:48px;margin-bottom:12px;opacity:0.5\">\uF8FF\u00FC\u00EE\u00E7</div>\n    <div style=\"font-size:16px\">\u2248\u03A9\u221A\u00B0dn\u221A\u00A9 v\u221A\u03A9sledky</div>\n  </div>\n</article>\n<script>\nconst c=document.querySelector(\x27.mcp-ui-container\x27);\nfunction p()\x7bwindow.parent.postMessage(\x7btype:\"ui-size-change\",payload:\x7bheight:c.scrollHeight,width:c.scrollWidth\x7d\x7d,\"*\")\x7d\nnew ResizeObserver(p).observe(c);p();\n</script>"

/-- Literal segments of the per-item card template (`src/search/ui.py:69-81`),
split at the f-string interpolation slots; the rank-badge `#` marker and its
closing `</span>` are kept as separate literals around the `position` slot. -/
def cardSeg0 : String :=
  "<div style=\"flex:0 0 224px;height:250px;background:#f8fafc;border:1px solid #e2e8f0;border-radius:12px;padding:14px;display:flex;flex-direction:column;box-shadow:0 1px 3px rgba(0,0,0,0.06)\">\n<div style=\"display:flex;align-items:center;gap:8px;margin-bottom:10px\">\n<img src=\""

def cardSeg1 : String :=
  "\" alt=\"\" style=\"width:16px;height:16px;border-radius:4px\" onerror=\"this.style.visibility=\x27hidden\x27\">\n<span style=\"font-size:12px;color:#64748b;flex:1;overflow:hidden;text-overflow:ellipsis;white-space:nowrap\">"

def cardSeg2 : String :=
  "</span>\n<span style=\"font-size:11px;font-weight:600;color:#3b82f6;background:#eff6ff;padding:2px 8px;border-radius:12px\">"

def cardSeg3 : String :=
  "\n</div>\n<a href=\""

def cardSeg4 : String :=
  "\" target=\"_blank\" style=\"font-size:14px;font-weight:600;color:#1e293b;text-decoration:none;margin-bottom:8px;display:-webkit-box;-webkit-line-clamp:2;-webkit-box-orient:vertical;overflow:hidden;line-height:1.4\">"

def cardSeg5 : String :=
  "</a>\n<p style=\"font-size:13px;color:#64748b;flex:1;display:-webkit-box;-webkit-line-clamp:4;-webkit-box-orient:vertical;overflow:hidden;margin:0;line-height:1.5\">"

def cardSeg6 : String :=
  "</p>\n<div style=\"display:flex;gap:8px;margin-top:12px\">\n<button onclick=\"extractContent(\x27"

def cardSeg7 : String :=
  "\x27)\" class=\"btn-primary\" style=\"flex:1;padding:6px 10px;border-radius:6px;font-size:11px;font-weight:500;cursor:pointer;border:none;background:#3b82f6;color:#fff\">Z\u221A\u2260skat</button>\n<a href=\""

def cardSeg8 : String :=
  "\" target=\"_blank\" class=\"btn-secondary\" style=\"flex:1;padding:6px 10px;border-radius:6px;font-size:11px;font-weight:500;cursor:pointer;text-decoration:none;text-align:center;border:1px solid #e2e8f0;background:#fff;color:#64748b\">Otev\u2248\u00F4\u221A\u2260t</a>\n</div>\n</div>"

/-- Carousel wrapper before the joined cards (`src/search/ui.py:85-89`). -/
def carouselPrefix : String :=
  "<style>*\x7bmargin:0;padding:0;box-sizing:border-box\x7dhtml,body\x7boverflow:hidden\x7d#carousel::-webkit-scrollbar\x7bdisplay:none\x7d.nav-btn:hover\x7bbackground:#e2e8f0\x7d.btn-primary:hover\x7bbackground:#2563eb!important\x7d.btn-secondary:hover\x7bbackground:#f8fafc!important\x7d</style>\n<article class=\"mcp-ui-container\" style=\"min-height:270px;padding:4px 12px;display:flex;align-items:center;font-family:-apple-system,BlinkMacSystemFont,\x27Segoe UI\x27,sans-serif;background:#fff\">\n  <div style=\"display:flex;gap:8px;align-items:center;width:100%\">\n    <button class=\"nav-btn\" onclick=\"scrollCarousel(-1)\" style=\"width:32px;height:32px;min-width:32px;border-radius:50%;border:none;background:#f8fafc;cursor:pointer;display:flex;align-items:center;justify-content:center;box-shadow:0 1px 4px rgba(0,0,0,0.08)\"><svg width=\"12\" height=\"12\" viewBox=\"0 0 24 24\" fill=\"none\" stroke=\"#64748b\" stroke-width=\"2.5\" stroke-linecap=\"round\" stroke-linejoin=\"round\"><path d=\"M15 18l-6-6 6-6\"/></svg></button>\n    <div id=\"carousel\" style=\"display:flex;gap:12px;overflow-x:auto;flex:1;scroll-behavior:smooth;scrollbar-width:none;align-items:center;padding:4px 0\">"

/-- Carousel wrapper after the joined cards (`src/search/ui.py:89-99`). -/
def carouselSuffix : String :=
  "</div>\n    <button class=\"nav-btn\" onclick=\"scrollCarousel(1)\" style=\"width:32px;height:32px;min-width:32px;border-radius:50%;border:none;background:#f8fafc;cursor:pointer;display:flex;align-items:center;justify-content:center;box-shadow:0 1px 4px rgba(0,0,0,0.08)\"><svg width=\"12\" height=\"12\" viewBox=\"0 0 24 24\" fill=\"none\" stroke=\"#64748b\" stroke-width=\"2.5\" stroke-linecap=\"round\" stroke-linejoin=\"round\"><path d=\"M9 18l6-6-6-6\"/></svg></button>\n  </div>\n</article>\n<script>\nconst c=document.querySelector(\x27.mcp-ui-container\x27),r=document.getElementById(\x27carousel\x27);\nfunction scrollCarousel(d)\x7br.scrollBy(\x7bleft:d*240,behavior:\x27smooth\x27\x7d)\x7d\nfunction extractContent(u)\x7bwindow.parent.postMessage(\x7btype:\x27tool\x27,payload:\x7btoolName:\x27extract_webpage\x27,params:\x7burl:u\x7d\x7d\x7d, \x27*\x27)\x7d\nfunction p()\x7bwindow.parent.postMessage(\x7btype:\"ui-size-change\",payload:\x7bheight:c.scrollHeight,width:c.scrollWidth\x7d\x7d,\"*\")\x7d\nnew ResizeObserver(p).observe(c);p();\n</script>"

/-- One result card of the carousel (`src/search/ui.py:60-81`): the f-string with
its interpolation slots filled; `idx` is the 1-based enumeration index supplied
by `enumerate(results, 1)`. -/
def card_html (item : SearchResultItem) (idx : Nat) : String :=
  let title := escape_html (item.title.getD "Bez n\u221A\u00B0zvu")
  let link := item.link.getD "#"
  let link_escaped := escape_html link
  let snippet := escape_html (item.snippet.getD "")
  let position := item.position.getD (Int.ofNat idx)
  let favicon_url := get_favicon_url link
  let domain := escape_html (get_domain link)
  cardSeg0 ++ favicon_url ++ cardSeg1 ++ domain ++ cardSeg2 ++ "#" ++ toString position
    ++ "</span>" ++ cardSeg3 ++ link_escaped ++ cardSeg4 ++ title ++ cardSeg5 ++ snippet
    ++ cardSeg6 ++ link_escaped ++ cardSeg7 ++ link_escaped ++ cardSeg8

/-- Python `"".join`: concatenation of a list of strings. -/
def concatStrings : List String → String
  | [] => ""
  | x :: xs => x ++ concatStrings xs

/-- The `html_results` list built by the `for i, item in enumerate(results, 1)`
loop: one card per item, in order, with the running 1-based index. -/
def cardsFrom : Nat → List SearchResultItem → List String
  | _, [] => []
  | i, item :: rest => card_html item i :: cardsFrom (i + 1) rest

/-- Embedding of `generate_search_results_html` (`src/search/ui.py:33-99`). -/
def generate_search_results_html (query : String) (results : List SearchResultItem) :
    String :=
  if results.isEmpty then emptyResultsHtml
  else carouselPrefix ++ concatStrings (cardsFrom 1 results) ++ carouselSuffix

/-- The UI-resource envelope returned by `create_ui_resource` as the code fills
it (`src/search/ui.py:118-127`). -/
structure UIResource where
  uri : String
  contentType : String
  htmlString : String
  encoding : String
deriving DecidableEq

/-- Embedding of `create_search_results_ui` (`src/search/ui.py:102-131`). The
millisecond timestamp and the 32-bit query hash are runtime inputs of the
environment, passed explicitly. -/
def create_search_results_ui (query : String) (results : List SearchResultItem)
    (query_hash timestamp : Nat) : UIResource :=
  { uri := "ui://mcp-search/results-" ++ toString query_hash ++ "-" ++ toString timestamp
    contentType := "rawHtml"
    htmlString := generate_search_results_html query results
    encoding := "text" }

/- ===================== src/main.py (search_web_ui) ===================== -/

/-- Modelled from the spec: `google_search_raw` is imported from `search.serper`
by `src/search/__init__.py` and called by `search_web_ui_tool` in `src/main.py`,
but its definition is missing from the sources. Spec §4.1 output shape (a) is
the "raw structured list of result items as returned by the provider", under the
same credential precondition and payload construction as `google_search`. -/
def google_search_raw (serper_api_key query : String)
    (country language location time_period : Option String) (page : Option Int)
    (provider : SearchPayload → Except SerperAPIError SearchData) :
    Except SerperAPIError SearchData :=
  if serper_api_key = "" then Except.error ⟨"SERPER_API_KEY is not configured", none⟩
  else provider (buildSearchPayload query country language location time_period page)

/-- Embedding of `search_web_ui_tool` (`src/main.py:131-155`): raw search with
the same parameters as `search_web`, read `data.get("organic", [])`, render, and
return a one-element list of UI resources. -/
def search_web_ui_tool (serper_api_key query : String)
    (country language location time_period : Option String) (page : Option Int)
    (provider : SearchPayload → Except SerperAPIError SearchData)
    (query_hash timestamp : Nat) : Except SerperAPIError (List UIResource) :=
  match google_search_raw serper_api_key query country language location time_period page
      provider with
  | Except.error e => Except.error e
  | Except.ok data =>
    Except.ok [create_search_results_ui query (data.organic.getD []) query_hash timestamp]

/- helper lemmas for the renderer -/

theorem escapeData_no_lt (l : List Char) : '<' ∉ escapeData l := by
  induction l with
  | nil => simp [escapeData]
  | cons c cs ih =>
    simp only [escapeData, List.mem_append]
    rintro (h | h)
    · unfold escapeChar at h
      split_ifs at h <;> simp_all [String.singleton, eq_comm]
    · exact ih h

theorem escape_html_no_lt (s : String) : '<' ∉ (escape_html s).data := by
  unfold escape_html
  split_ifs
  · exact escapeData_no_lt s.data
  · simp

theorem card_html_eq (item : SearchResultItem) (idx : Nat) :
    card_html item idx
      = cardSeg0 ++ get_favicon_url (item.link.getD "#") ++ cardSeg1
        ++ escape_html (get_domain (item.link.getD "#")) ++ cardSeg2 ++ "#"
        ++ toString (item.position.getD (Int.ofNat idx)) ++ "</span>" ++ cardSeg3
        ++ escape_html (item.link.getD "#") ++ cardSeg4
        ++ escape_html (item.title.getD "Bez n√°zvu") ++ cardSeg5
        ++ escape_html (item.snippet.getD "") ++ cardSeg6
        ++ escape_html (item.link.getD "#") ++ cardSeg7
        ++ escape_html (item.link.getD "#") ++ cardSeg8 := rfl

theorem card_badge_infix (item : SearchResultItem) (idx : Nat) :
    containsStr (card_html item idx)
      ("#" ++ toString (item.position.getD (Int.ofNat idx)) ++ "</span>") := by
  refine ⟨(cardSeg0 ++ get_favicon_url (item.link.getD "#") ++ cardSeg1
      ++ escape_html (get_domain (item.link.getD "#")) ++ cardSeg2).data,
    (cardSeg3 ++ escape_html (item.link.getD "#") ++ cardSeg4
      ++ escape_html (item.title.getD "Bez n√°zvu") ++ cardSeg5
      ++ escape_html (item.snippet.getD "") ++ cardSeg6
      ++ escape_html (item.link.getD "#") ++ cardSeg7
      ++ escape_html (item.link.getD "#") ++ cardSeg8).data, ?_⟩
  rw [card_html_eq]
  simp only [String.data_append, List.append_assoc]

theorem cardsFrom_length (k : Nat) (items : List SearchResultItem) :
    (cardsFrom k items).length = items.length := by
  induction items generalizing k with
  | nil => rfl
  | cons x xs ih => simp [cardsFrom, ih]

theorem cardsFrom_get (k : Nat) (items : List SearchResultItem) (i : Nat)
    (h : i < items.length) (h2 : i < (cardsFrom k items).length) :
    (cardsFrom k items).get ⟨i, h2⟩ = card_html (items.get ⟨i, h⟩) (k + i) := by
  induction items generalizing k i with
  | nil => simp at h
  | cons x xs ih =>
    cases i with
    | zero => simp [cardsFrom]
    | succ j =>
      simp only [cardsFrom, List.get]
      rw [ih (k + 1) j (by simpa using h) (by simpa [cardsFrom_length] using h)]
      congr 1
      omega

/-- C7 counterexample: for an item whose title contains `<script>`, the claim
says the generated HTML contains no unescaped `<script>` tag; yet the generated
document always contains the literal substring `<script>` — the carousel
template's own script element — so the claim is false as stated at this input. -/
theorem spec_C7_document_contains_script :
    containsStr
      (generate_search_results_html "q"
        [⟨some "<script>alert(1)</script>", some "http://a.test", some "sa", none⟩])
      "<script>" := by decide

/-- C7 amended: every user-supplied text field — title, link, snippet and the
displayed domain — passes through `escape_html` before being embedded in the
card (the card is exactly the template segments interleaved with the escaped
fields, the favicon URL and the rank badge); escaped text never contains `<`;
and the card built from the `<script>`-bearing title of the claim contains no
`<script>` substring — the only `<script>` occurrences in the generated document
belong to the fixed carousel template. -/
theorem spec_C7_fields_escaped :
    (∀ item idx, card_html item idx
        = cardSeg0 ++ get_favicon_url (item.link.getD "#") ++ cardSeg1
          ++ escape_html (get_domain (item.link.getD "#")) ++ cardSeg2 ++ "#"
          ++ toString (item.position.getD (Int.ofNat idx)) ++ "</span>" ++ cardSeg3
          ++ escape_html (item.link.getD "#") ++ cardSeg4
          ++ escape_html (item.title.getD "Bez n√°zvu") ++ cardSeg5
          ++ escape_html (item.snippet.getD "") ++ cardSeg6
          ++ escape_html (item.link.getD "#") ++ cardSeg7
          ++ escape_html (item.link.getD "#") ++ cardSeg8)
    ∧ (∀ s, '<' ∉ (escape_html s).data)
    ∧ ¬ containsStr
        (card_html ⟨some "<script>alert(1)</script>", some "http://a.test", some "sa", none⟩ 1)
        "<script>" :=
  ⟨card_html_eq, escape_html_no_lt, by decide⟩

/-- C8: the empty result list yields exactly the fixed placeholder, which
contains no card element, no carousel container and no control buttons; a
non-empty list yields the carousel wrapper around exactly one card per item, in
input order (the i-th card renders the i-th item at 1-based index `1 + i`), and
every card carries the rank badge `#p</span>` where `p` is the item's `position`
field when present and the 1-based enumeration index otherwise. -/
theorem spec_C8_placeholder_and_cards :
    (∀ q : String, generate_search_results_html q [] = emptyResultsHtml)
    ∧ ¬ containsStr emptyResultsHtml "flex:0 0 224px"
    ∧ ¬ containsStr emptyResultsHtml "<button"
    ∧ ¬ containsStr emptyResultsHtml "carousel"
    ∧ (∀ (q : String) r rs, generate_search_results_html q (r :: rs)
        = carouselPrefix ++ concatStrings (cardsFrom 1 (r :: rs)) ++ carouselSuffix)
    ∧ (∀ k items, (cardsFrom k items).length = items.length)
    ∧ (∀ k items i (h : i < items.length) (h2 : i < (cardsFrom k items).length),
        (cardsFrom k items).get ⟨i, h2⟩ = card_html (items.get ⟨i, h⟩) (k + i))
    ∧ (∀ item idx, containsStr (card_html item idx)
        ("#" ++ toString (item.position.getD (Int.ofNat idx)) ++ "</span>")) :=
  ⟨fun _ => rfl, by decide, by decide, by decide, fun _ _ _ => rfl,
   cardsFrom_length, cardsFrom_get, card_badge_infix⟩

/-- C8 witness: the indexed-card clause of `spec_C8_placeholder_and_cards`
evaluated on a concrete two-item list (the second card renders the second item
at enumeration index 2). -/
theorem spec_C8_placeholder_and_cards_witness :
    (cardsFrom 1
        [⟨some "A", some "http://a.test", some "sa", none⟩,
         ⟨some "B", some "http://b.test", some "sb", some 7⟩]).get
      ⟨1, by decide⟩
      = card_html
          (([⟨some "A", some "http://a.test", some "sa", none⟩,
             ⟨some "B", some "http://b.test", some "sb", some 7⟩]
            : List SearchResultItem).get ⟨1, by decide⟩) (1 + 1) :=
  spec_C8_placeholder_and_cards.2.2.2.2.2.2.1 1
    [⟨some "A", some "http://a.test", some "sa", none⟩,
     ⟨some "B", some "http://b.test", some "sb", some 7⟩] 1 (by decide) (by decide)

/-- C9: `google_search_raw` (modelled from the spec, its definition being absent
from the sources) returns the provider response as received; `search_web_ui_tool`
invokes it with the same parameters as `search_web` (the identical payload
construction), passes the response's organic item list unchanged and in order to
the renderer, and returns a single-element list holding the resulting UIResource
envelope whose HTML is exactly the rendering of that list. -/
theorem spec_C9_raw_shape_and_ui (key query : String)
    (country language location time_period : Option String) (page : Option Int)
    (provider : SearchPayload → Except SerperAPIError SearchData) (data : SearchData)
    (query_hash timestamp : Nat) (hk : key ≠ "")
    (hprov : provider (buildSearchPayload query country language location time_period page)
      = Except.ok data) :
    google_search_raw key query country language location time_period page provider
      = Except.ok data
    ∧ search_web_ui_tool key query country language location time_period page provider
        query_hash timestamp
      = Except.ok
          [create_search_results_ui query (data.organic.getD []) query_hash timestamp]
    ∧ (create_search_results_ui query (data.organic.getD []) query_hash timestamp).htmlString
      = generate_search_results_html query (data.organic.getD [])
    ∧ google_search key query country language location time_period page provider
      = Except.ok (formatOrganicResults (data.organic.getD [])) := by
  have hraw : google_search_raw key query country language location time_period page provider
      = Except.ok data := by
    simp [google_search_raw, hk, hprov]
  refine ⟨hraw, ?_, rfl, ?_⟩
  · simp [search_web_ui_tool, hraw]
  · simp [google_search, hk, hprov]

/-- C9 witness: `spec_C9_raw_shape_and_ui` at a concrete one-item provider
response, key `"serperkey"`, hash 1 and timestamp 2. -/
theorem spec_C9_raw_shape_and_ui_witness :
    google_search_raw "serperkey" "q" none none none none none
        (fun _ => Except.ok { organic := some [⟨some "A", some "http://a.test", some "sa", none⟩] })
      = Except.ok { organic := some [⟨some "A", some "http://a.test", some "sa", none⟩] }
    ∧ search_web_ui_tool "serperkey" "q" none none none none none
        (fun _ => Except.ok { organic := some [⟨some "A", some "http://a.test", some "sa", none⟩] })
        1 2
      = Except.ok
          [create_search_results_ui "q"
            (((some [⟨some "A", some "http://a.test", some "sa", none⟩]
               : Option (List SearchResultItem))).getD []) 1 2]
    ∧ (create_search_results_ui "q"
        (((some [⟨some "A", some "http://a.test", some "sa", none⟩]
           : Option (List SearchResultItem))).getD []) 1 2).htmlString
      = generate_search_results_html "q"
          (((some [⟨some "A", some "http://a.test", some "sa", none⟩]
             : Option (List SearchResultItem))).getD [])
    ∧ google_search "serperkey" "q" none none none none none
        (fun _ => Except.ok { organic := some [⟨some "A", some "http://a.test", some "sa", none⟩] })
      = Except.ok (formatOrganicResults
          (((some [⟨some "A", some "http://a.test", some "sa", none⟩]
             : Option (List SearchResultItem))).getD [])) :=
  spec_C9_raw_shape_and_ui "serperkey" "q" none none none none none _ _ 1 2
    (by decide) rfl
